import Mathlib

/-!
Verification of `internal/config/struct.go` (package `config` of Becojo/askgod).

The file translates the source into a shallow embedding:

* `parseConfig` and `ReadConfigFile` follow the Go functions line by line.
* The configuration document (`api.Config`, owned by another package and
  treated as an opaque structured value by the spec) is modelled as a small
  record of two integer fields — enough to express decoding, canonical
  re-encoding and partial updates.
* The `gopkg.in/yaml.v2` collaborator is modelled after its documented
  `Unmarshal`/`Marshal` behaviour: `Unmarshal` decodes into the supplied
  value in place (fields absent from the input keep their previous values,
  unknown keys are ignored), and on a type mismatch it keeps decoding the
  remaining fields and reports a type error afterwards, leaving the target
  with every value that could be decoded.  `Marshal` is a canonical,
  deterministic encoding.
* The fsnotify watch goroutine is modelled as a step function `loopIter`
  (one iteration of the `select` loop) plus `runLoop` (folding a sequence of
  inputs).  Side effects — log lines, the debounce sleep, the re-decode of
  the file, handler invocations — are recorded in an `Action` trace in the
  order the source performs them.
* `path/filepath.Dir`, `Base` and `Clean` are translated from Go's unix
  implementation (separator `/`, empty volume name).
-/

namespace Askgod

/-- Modelled from the spec: `api.Config` (package `api`, not under `src/`) is
the decoded configuration document, "an opaque structured value (schema owned
externally)".  It is modelled as a record of two integer fields named after
two of the real schema's sections; this is enough to express decoding,
canonical re-encoding and partially updated values. -/
structure ApiConfig where
  daemon : Nat
  scoring : Nat
  deriving DecidableEq, Repr

/-- A scalar value appearing in the yaml input: either a value of the type
the document expects (`vnat`) or a type-mismatched value (`vbad`). -/
inductive YamlVal where
  | vnat (n : Nat)
  | vbad
  deriving DecidableEq, Repr

/-- One `key: value` entry of the yaml input. -/
structure YamlField where
  name : String
  val : YamlVal
  deriving DecidableEq, Repr

/-- The bytes of the configuration file, as the yaml parser sees them:
either a well-formed document (a list of key/value entries) or content the
parser rejects before any decoding happens (a syntax error). -/
inductive FileContent where
  | fields (fs : List YamlField)
  | malformed
  deriving DecidableEq, Repr

/-- The state of the file at `configPath` at the moment it is accessed. -/
inductive FsFile where
  | absent
  | unreadable
  | readable (content : FileContent)
  deriving DecidableEq, Repr

/-- One decoding step of `yaml.Unmarshal` into a struct: a known key with a
well-typed value sets the corresponding field; a known key with a
type-mismatched value leaves the field unchanged (the mismatch is reported
separately); unknown keys are ignored. -/
def applyField (c : ApiConfig) (f : YamlField) : ApiConfig :=
  if f.name = "daemon" then
    match f.val with
    | .vnat n => { c with daemon := n }
    | .vbad => c
  else if f.name = "scoring" then
    match f.val with
    | .vnat n => { c with scoring := n }
    | .vbad => c
  else c

/-- `yaml.Unmarshal`'s effect on the target value: the entries are applied in
order to the existing value (decode-in-place: fields not mentioned keep
their previous values). -/
def applyFields (fs : List YamlField) (c : ApiConfig) : ApiConfig :=
  fs.foldl applyField c

/-- Whether one entry produces a yaml type error (a known key whose value
cannot be decoded into the field's type). -/
def fieldTypeError (f : YamlField) : Bool :=
  match f.val with
  | .vbad => f.name == "daemon" || f.name == "scoring"
  | _ => false

/-- Whether decoding the entries reports a `*yaml.TypeError`. -/
def fieldsTypeError (fs : List YamlField) : Bool :=
  fs.any fieldTypeError

/-- Model of `yaml.Unmarshal(content, &target)`: on a syntax error the
target is untouched and an error is reported; otherwise the entries are
decoded into the target in place, and a type error is reported (after the
partial decode) when some known field had a mismatched value.  This follows
the documented yaml.v2 behaviour: "If one or more values cannot be decoded
due to a type mismatches, decoding continues partially until the end of the
YAML content, and a *yaml.TypeError is returned". -/
def yamlUnmarshal (content : FileContent) (c : ApiConfig) : ApiConfig × Bool :=
  match content with
  | .malformed => (c, true)
  | .fields fs => (applyFields fs c, fieldsTypeError fs)

/-- Model of `yaml.Marshal`: a canonical deterministic re-encoding of the
document, used by the source only for byte-for-byte comparison. -/
def yamlMarshal (c : ApiConfig) : String :=
  "daemon: " ++ toString c.daemon ++ "\nscoring: " ++ toString c.scoring ++ "\n"

/-- The error wrappers `parseConfig` produces: "Failed to read file
content: %v" and "Failed to parse yaml: %v". -/
inductive ParseErr where
  | readFailed
  | yamlFailed
  deriving DecidableEq, Repr

/-- `parseConfig` from struct.go: read the file's content
(`ioutil.ReadFile`), then `yaml.Unmarshal` into `conf` in place.  The
returned pair is the state of the target after the call together with the
error, mirroring that the Go function mutates its argument through a
pointer even when it returns an error. -/
def parseConfig (file : FsFile) (conf : ApiConfig) : ApiConfig × Option ParseErr :=
  match file with
  | .absent => (conf, some .readFailed)
  | .unreadable => (conf, some .readFailed)
  | .readable content =>
    let r := yamlUnmarshal content conf
    (r.1, if r.2 then some .yamlFailed else none)

/-- The `Config` struct from struct.go: the embedded `*api.Config` document
plus the registered change handlers.  The `log15.Logger` field is omitted —
log calls are recorded in the action traces instead.  Handlers
(`func(*Config)` values) are opaque callbacks identified by `Nat` ids; an
invocation is recorded in the trace together with its argument. -/
structure Config where
  config : ApiConfig
  handlers : List Nat
  deriving DecidableEq, Repr

/-- `RegisterHandler` from struct.go: appends the handler and returns `nil`.
The returned `Option String` is the Go `error` result, always `none`. -/
def RegisterHandler (c : Config) (h : Nat) : Config × Option String :=
  ({ c with handlers := c.handlers ++ [h] }, none)

/-- Modelled from the spec: `utils.PathExists` (package `internal/utils`,
not under `src/`); the spec requires the load to fail "if the path does not
exist prior to attempting a read (checked explicitly, not inferred from the
read failure)". -/
def PathExists (f : FsFile) : Bool :=
  match f with
  | .absent => false
  | _ => true

/-- The errors `ReadConfigFile` can return: the not-found message, the two
wrappers forwarded from `parseConfig`, and the two fsnotify setup
messages. -/
inductive ConfigError where
  | notFound
  | readFailed
  | yamlFailed
  | fsnotifySetup
  | fsnotifyWatch
  deriving DecidableEq, Repr

/-! ### `path/filepath` (unix): `Clean`, `Dir`, `Base`

Translated from Go's `path/filepath` for unix (`Separator = '/'`, empty
volume names).  `Clean`'s scan is phrased character by character: Go's
inner copy loop (the `default` case, which copies a whole component before
returning to the outer loop) becomes the `inComp = true` state, in which
each non-separator character is appended directly and a separator ends the
component; the `.` / `..` cases only ever apply at a component boundary in
Go, i.e. exactly when `inComp = false` here. -/

/-- The `..` backtracking loop of Go's `Clean`: starting from `w`
(`out.w` after the initial decrement), decrease `w` while `w > dotdot` and
the buffer character at index `w` is not a separator.  `out` is the buffer
before truncation; the caller truncates to the returned length. -/
def backtrackW (out : List Char) (dotdot : Nat) : Nat → Nat
  | 0 => 0
  | w + 1 =>
    if w + 1 > dotdot && !(out.getD (w + 1) ' ' == '/') then backtrackW out dotdot w
    else w + 1

/-- The main scan of Go's `Clean` (unix).  Arguments: `rooted` (path began
with a separator), `inComp` (currently inside the copy loop of a component),
the remaining input, the output buffer, and `dotdot` (the limit the `..`
case may backtrack to). -/
def cleanLoop (rooted : Bool) : Bool → List Char → List Char → Nat → List Char
  | _, [], out, _ => out
  | true, c :: rest, out, dotdot =>
    if c == '/' then cleanLoop rooted false rest out dotdot
    else cleanLoop rooted true rest (out ++ [c]) dotdot
  | false, c :: rest, out, dotdot =>
    if c == '/' then
      cleanLoop rooted false rest out dotdot
    else if c == '.' && (rest.isEmpty || rest.head? == some '/') then
      cleanLoop rooted false rest out dotdot
    else
      match rest with
      | [] =>
        let out2 := if (rooted && out.length != 1) || (!rooted && out.length != 0)
          then out ++ ['/'] else out
        cleanLoop rooted true [] (out2 ++ [c]) dotdot
      | r1 :: rest2 =>
        if c == '.' && r1 == '.' && (rest2.isEmpty || rest2.head? == some '/') then
          if out.length > dotdot then
            cleanLoop rooted false rest2 (out.take (backtrackW out dotdot (out.length - 1))) dotdot
          else if !rooted then
            let out2 := (if out.length > 0 then out ++ ['/'] else out) ++ ['.', '.']
            cleanLoop rooted false rest2 out2 out2.length
          else
            cleanLoop rooted false rest2 out dotdot
        else
          let out2 := if (rooted && out.length != 1) || (!rooted && out.length != 0)
            then out ++ ['/'] else out
          cleanLoop rooted true (r1 :: rest2) (out2 ++ [c]) dotdot

/-- `filepath.Clean` (unix, empty volume): empty input cleans to `"."`;
otherwise run the scan, and if the output buffer ends up empty return
`"."`. -/
def clean (path : List Char) : List Char :=
  match path with
  | [] => ['.']
  | c :: rest =>
    let out :=
      if c == '/' then cleanLoop true false rest ['/'] 1
      else cleanLoop false false (c :: rest) [] 0
    if out.isEmpty then ['.'] else out

/-- `filepath.Dir` (unix, empty volume): drop everything after the last
separator (keeping the separator), then `Clean` the prefix. -/
def filepathDir (path : String) : String :=
  String.mk (clean ((path.data.reverse.dropWhile (fun c => c != '/')).reverse))

/-- `filepath.Base` (unix): empty input gives `"."`; otherwise strip
trailing separators, keep everything after the last remaining separator,
and if nothing remains the path was all separators, giving `"/"`. -/
def filepathBase (path : String) : String :=
  if path = "" then "."
  else
    let cs1 := (path.data.reverse.dropWhile (fun c => c == '/')).reverse
    let cs2 := (cs1.reverse.takeWhile (fun c => c != '/')).reverse
    if cs2.isEmpty then "/" else String.mk cs2

/-- `pathDir` before the empty-string fallback: `filepath.Dir(configPath)`. -/
def pathDirRaw (configPath : String) : String := filepathDir configPath

/-- `pathDir` as the goroutine uses it: struct.go replaces an empty
directory string by `"./"`. -/
def pathDirFixed (configPath : String) : String :=
  if pathDirRaw configPath = "" then "./" else pathDirRaw configPath

/-- `pathBase := filepath.Base(configPath)`. -/
def pathBase (configPath : String) : String := filepathBase configPath

/-- The string the event filter compares `ev.Name` against:
`fmt.Sprintf("%s/%s", pathDir, pathBase)`. -/
def watchedPath (configPath : String) : String :=
  pathDirFixed configPath ++ "/" ++ pathBase configPath

/-! ### The monitoring goroutine -/

/-- The observable steps of one iteration of the watch loop, in the order
the source performs them: capturing the old comparison encoding
(`yaml.Marshal(conf.Config)`), the debounce sleep (`time.Sleep`), the
re-decode of the file (`parseConfig`), log lines, and handler
invocations with their argument. -/
inductive Action where
  | snapshotOld (bytes : String)
  | sleepMs (ms : Nat)
  | reDecode
  | logError (msg : String)
  | logInfo (msg : String)
  | invoke (h : Nat) (store : Config)
  deriving DecidableEq, Repr

/-- What the `select` statement can receive: a file-system event (only its
`Name` is consulted) or an error from `watcher.Errors`. -/
inductive WatchInput where
  | event (name : String)
  | werror
  deriving DecidableEq, Repr

/-- One iteration of the goroutine's `for { select { ... } }` loop in
struct.go.  `fileNow` is the state of the file when `parseConfig` reads it
(after the sleep).  Returns the store after the iteration (the goroutine
mutates the same `conf` the caller holds) and the trace of observable
actions.  Faithful points: a non-matching event name is dropped with no
action; the old encoding is captured before the sleep and the sleep before
the re-decode; a `parseConfig` error is logged but execution falls through
to the comparison (there is no `continue` in the error branch, and the
decode wrote into `conf.Config` in place); when the encodings are equal the
iteration stops before the info log; otherwise the reload is logged and
every handler is invoked in order with the updated store. -/
def loopIter (configPath : String) (fileNow : FsFile) (conf : Config) :
    WatchInput → Config × List Action
  | .werror => (conf, [.logError "Got bad file notification"])
  | .event name =>
    if name != watchedPath configPath then (conf, [])
    else
      let oldData := yamlMarshal conf.config
      let r := parseConfig fileNow conf.config
      let conf2 : Config := { conf with config := r.1 }
      let errActs : List Action :=
        match r.2 with
        | some _ => [.logError "Failed to read the new configuration"]
        | none => []
      let newData := yamlMarshal r.1
      let pre : List Action := [.snapshotOld oldData, .sleepMs 1000, .reDecode] ++ errActs
      if oldData == newData then (conf2, pre)
      else
        (conf2, pre ++ [.logInfo "Configuration file changed, reloading"]
          ++ conf2.handlers.map (fun h => Action.invoke h conf2))

/-- The unbounded loop: fold `loopIter` over a sequence of inputs, each
paired with the state of the file at that iteration. -/
def runLoop (configPath : String) (conf : Config) :
    List (WatchInput × FsFile) → Config × List Action
  | [] => (conf, [])
  | (inp, file) :: rest =>
    let r := loopIter configPath file conf inp
    let r2 := runLoop configPath r.1 rest
    (r2.1, r.2 ++ r2.2)

/-- `ReadConfigFile` from struct.go.  The existence check comes first; the
initial `parseConfig` decodes into the zero document (`&conf.Config` is a
nil pointer, so yaml allocates a fresh zero value); any parse error is
returned as-is with no store.  When `monitor` is set, failure of
`fsnotify.NewWatcher()` or of `watcher.Add` (abstracted as the two boolean
parameters, since fsnotify is an external collaborator) returns an error
and no store; otherwise the goroutine (modelled by `loopIter`/`runLoop`) is
started and the store is returned.  On success the handler list is the
struct literal's, i.e. empty. -/
def ReadConfigFile (configPath : String) (file : FsFile)
    (monitor newWatcherFails watchAddFails : Bool) : Except ConfigError Config :=
  if !PathExists file then .error .notFound
  else
    let r := parseConfig file ⟨0, 0⟩
    match r.2 with
    | some .readFailed => .error .readFailed
    | some .yamlFailed => .error .yamlFailed
    | none =>
      if monitor then
        if newWatcherFails then .error .fsnotifySetup
        else if watchAddFails then .error .fsnotifyWatch
        else .ok { config := r.1, handlers := [] }
      else .ok { config := r.1, handlers := [] }

/-- The accumulator step of "the last well-typed value assigned to the field
named `fname`" over a yaml entry list; used to characterise
`applyFields`. -/
def vnatStep (fname : String) (acc : Option Nat) (f : YamlField) : Option Nat :=
  if f.name = fname then
    match f.val with
    | .vnat n => some n
    | .vbad => acc
  else acc

/-- The last well-typed value the entry list assigns to the field named
`fname`, if any. -/
def lastVNat (fname : String) (fs : List YamlField) : Option Nat :=
  fs.foldl (vnatStep fname) none

/-- Whether an action is the debounce sleep. -/
def isSleepAction : Action → Bool
  | .sleepMs _ => true
  | _ => false

/-! ### Helper lemmas -/

theorem data_append (a b : String) : (a ++ b).data = a.data ++ b.data := by
  cases a; cases b; rfl

theorem string_append_left_cancel {a b c : String} (h : a ++ b = a ++ c) : b = c := by
  have h2 : a.data ++ b.data = a.data ++ c.data := by
    rw [← data_append, ← data_append, h]
  have h3 : b.data = c.data := List.append_cancel_left h2
  cases b; cases c; exact congrArg String.mk (by simpa using h3)

theorem clean_ne_nil (path : List Char) : clean path ≠ [] := by
  unfold clean
  match path with
  | [] => simp
  | c :: rest =>
    simp only
    split
    all_goals split
    all_goals simp_all

theorem foldl_vnatStep (fname : String) (fs : List YamlField) (a : Option Nat) :
    fs.foldl (vnatStep fname) a =
      match fs.foldl (vnatStep fname) none with
      | some v => some v
      | none => a := by
  induction fs generalizing a with
  | nil => simp
  | cons f t ih =>
    simp only [List.foldl_cons]
    rw [ih (vnatStep fname a f), ih (vnatStep fname none f)]
    cases h : t.foldl (vnatStep fname) none with
    | some v => simp
    | none =>
      simp only
      unfold vnatStep
      by_cases hn : f.name = fname
      · cases f.val <;> simp [hn]
      · simp [hn]

theorem applyField_daemon (c : ApiConfig) (f : YamlField) :
    (applyField c f).daemon = (vnatStep "daemon" none f).getD c.daemon := by
  unfold applyField vnatStep
  by_cases h1 : f.name = "daemon"
  · cases f.val <;> simp [h1]
  · by_cases h2 : f.name = "scoring" <;> cases f.val <;> simp [h1, h2]

theorem applyField_scoring (c : ApiConfig) (f : YamlField) :
    (applyField c f).scoring = (vnatStep "scoring" none f).getD c.scoring := by
  unfold applyField vnatStep
  by_cases h1 : f.name = "daemon"
  · have h2 : f.name ≠ "scoring" := by simp [h1]
    cases f.val <;> simp [h1, h2]
  · by_cases h2 : f.name = "scoring" <;> cases f.val <;> simp [h1, h2]

theorem applyFields_eq (fs : List YamlField) (c : ApiConfig) :
    applyFields fs c =
      ⟨(lastVNat "daemon" fs).getD c.daemon, (lastVNat "scoring" fs).getD c.scoring⟩ := by
  induction fs generalizing c with
  | nil =>
    simp [applyFields, lastVNat]
  | cons f t ih =>
    show applyFields t (applyField c f) = _
    rw [ih (applyField c f)]
    have hd : lastVNat "daemon" (f :: t) =
        match lastVNat "daemon" t with
        | some v => some v
        | none => vnatStep "daemon" none f := by
      show t.foldl (vnatStep "daemon") (vnatStep "daemon" none f) = _
      rw [foldl_vnatStep]
      rfl
    have hs : lastVNat "scoring" (f :: t) =
        match lastVNat "scoring" t with
        | some v => some v
        | none => vnatStep "scoring" none f := by
      show t.foldl (vnatStep "scoring") (vnatStep "scoring" none f) = _
      rw [foldl_vnatStep]
      rfl
    rw [hd, hs, applyField_daemon, applyField_scoring]
    cases lastVNat "daemon" t <;> cases lastVNat "scoring" t <;>
      cases vnatStep "daemon" none f <;> cases vnatStep "scoring" none f <;> simp

theorem applyFields_idem (fs : List YamlField) (c : ApiConfig) :
    applyFields fs (applyFields fs c) = applyFields fs c := by
  rw [applyFields_eq fs c, applyFields_eq fs ⟨_, _⟩]
  cases lastVNat "daemon" fs <;> cases lastVNat "scoring" fs <;> simp

theorem loopIter_matched_ok (configPath : String) (fileNow : FsFile) (conf : Config)
    (doc2 : ApiConfig) (hp : parseConfig fileNow conf.config = (doc2, none))
    (he : yamlMarshal conf.config = yamlMarshal doc2) :
    loopIter configPath fileNow conf (.event (watchedPath configPath)) =
      ({ conf with config := doc2 },
       [.snapshotOld (yamlMarshal conf.config), .sleepMs 1000, .reDecode]) := by
  simp [loopIter, hp, he]

theorem loopIter_matched_ok_diff (configPath : String) (fileNow : FsFile) (conf : Config)
    (doc2 : ApiConfig) (hp : parseConfig fileNow conf.config = (doc2, none))
    (he : yamlMarshal conf.config ≠ yamlMarshal doc2) :
    loopIter configPath fileNow conf (.event (watchedPath configPath)) =
      ({ conf with config := doc2 },
       [.snapshotOld (yamlMarshal conf.config), .sleepMs 1000, .reDecode,
        .logInfo "Configuration file changed, reloading"]
       ++ conf.handlers.map (fun h => Action.invoke h { conf with config := doc2 })) := by
  simp [loopIter, hp, he]

theorem loopIter_matched_err (configPath : String) (fileNow : FsFile) (conf : Config)
    (doc2 : ApiConfig) (e : ParseErr) (hp : parseConfig fileNow conf.config = (doc2, some e))
    (he : yamlMarshal conf.config = yamlMarshal doc2) :
    loopIter configPath fileNow conf (.event (watchedPath configPath)) =
      ({ conf with config := doc2 },
       [.snapshotOld (yamlMarshal conf.config), .sleepMs 1000, .reDecode,
        .logError "Failed to read the new configuration"]) := by
  simp [loopIter, hp, he]

theorem loopIter_matched_err_diff (configPath : String) (fileNow : FsFile) (conf : Config)
    (doc2 : ApiConfig) (e : ParseErr) (hp : parseConfig fileNow conf.config = (doc2, some e))
    (he : yamlMarshal conf.config ≠ yamlMarshal doc2) :
    loopIter configPath fileNow conf (.event (watchedPath configPath)) =
      ({ conf with config := doc2 },
       [.snapshotOld (yamlMarshal conf.config), .sleepMs 1000, .reDecode,
        .logError "Failed to read the new configuration",
        .logInfo "Configuration file changed, reloading"]
       ++ conf.handlers.map (fun h => Action.invoke h { conf with config := doc2 })) := by
  simp [loopIter, hp, he]

theorem filter_sleep_invokes (hs : List Nat) (st : Config) :
    (hs.map (fun h => Action.invoke h st)).filter isSleepAction = [] := by
  induction hs with
  | nil => rfl
  | cons a t ih => simpa [isSleepAction] using ih

/-! ### The claims -/

/-- C1 (code bug): the claim says a failed re-decode abandons the cycle
after logging, with the document unchanged and no handler invoked.  The
source logs the error but has no `continue`: execution falls through to the
comparison with the in-place-modified document.  At this input the decode
fails with a yaml type error, yet the document has been partially updated
(daemon decoded, scoring kept) and the handler fires with that partially
updated store. -/
theorem c1_decode_failure_not_abandoned :
    (parseConfig (.readable (.fields [⟨"daemon", .vnat 5⟩, ⟨"scoring", .vbad⟩]))
      (⟨1, 2⟩ : ApiConfig)).2 = some ParseErr.yamlFailed ∧
    (loopIter "/etc/askgod.yaml" (.readable (.fields [⟨"daemon", .vnat 5⟩, ⟨"scoring", .vbad⟩]))
      { config := ⟨1, 2⟩, handlers := [7] } (.event "/etc/askgod.yaml")).1.config ≠ ⟨1, 2⟩ ∧
    Action.logError "Failed to read the new configuration" ∈
      (loopIter "/etc/askgod.yaml" (.readable (.fields [⟨"daemon", .vnat 5⟩, ⟨"scoring", .vbad⟩]))
        { config := ⟨1, 2⟩, handlers := [7] } (.event "/etc/askgod.yaml")).2 ∧
    Action.invoke 7 { config := ⟨5, 2⟩, handlers := [7] } ∈
      (loopIter "/etc/askgod.yaml" (.readable (.fields [⟨"daemon", .vnat 5⟩, ⟨"scoring", .vbad⟩]))
        { config := ⟨1, 2⟩, handlers := [7] } (.event "/etc/askgod.yaml")).2 := by
  decide

/-- C2 (code bug): the claim says the store only ever holds the initial or
some later successfully-decoded document in its entirety, because decoding
happens into a detached value that is swapped whole.  The source decodes in
place into the live `conf.Config`.  At this input the cycle's only decode
FAILS (type error), yet afterwards the store holds `⟨9, 6⟩` — a partial
mix of old and new that differs both from the previous document and from a
detached decode of the new content (which would be `⟨9, 0⟩`). -/
theorem c2_inplace_partial_update :
    (parseConfig (.readable (.fields [⟨"daemon", .vnat 9⟩, ⟨"scoring", .vbad⟩]))
      (⟨4, 6⟩ : ApiConfig)).2 = some ParseErr.yamlFailed ∧
    (loopIter "/etc/askgod.yaml" (.readable (.fields [⟨"daemon", .vnat 9⟩, ⟨"scoring", .vbad⟩]))
      { config := ⟨4, 6⟩, handlers := [] } (.event "/etc/askgod.yaml")).1.config = ⟨9, 6⟩ ∧
    (⟨9, 6⟩ : ApiConfig) ≠ ⟨4, 6⟩ ∧
    (⟨9, 6⟩ : ApiConfig) ≠ applyFields [⟨"daemon", .vnat 9⟩, ⟨"scoring", .vbad⟩] ⟨0, 0⟩ := by
  decide

/-- C3: `ReadConfigFile`'s load contract: an absent path fails with the
not-found error (decided by the explicit `PathExists` check, before any
read — an absent file would otherwise surface as the read error); an
unreadable file fails with the read error; content the decoder rejects
fails with the yaml error; on success the store holds the decoded document
and an empty handler list; every failure returns `Except.error`, i.e. no
store at all. -/
theorem c3_load_contract (path : String) (file : FsFile) (wf af : Bool) :
    (file = .absent → ∀ monitor, ReadConfigFile path file monitor wf af = .error .notFound) ∧
    (file = .unreadable → ∀ monitor, ReadConfigFile path file monitor wf af = .error .readFailed) ∧
    (∀ content, file = .readable content → (yamlUnmarshal content ⟨0, 0⟩).2 = true →
      ∀ monitor, ReadConfigFile path file monitor wf af = .error .yamlFailed) ∧
    (∀ content doc, file = .readable content → yamlUnmarshal content ⟨0, 0⟩ = (doc, false) →
      ReadConfigFile path file false wf af = .ok { config := doc, handlers := [] }) := by
  refine ⟨?_, ?_, ?_, ?_⟩
  · rintro rfl monitor; rfl
  · rintro rfl monitor; rfl
  · rintro content rfl h monitor
    simp [ReadConfigFile, PathExists, parseConfig, h]
  · rintro content doc rfl h
    simp [ReadConfigFile, PathExists, parseConfig, h]

/-- C3 witness: a successful load of a well-formed empty document. -/
theorem c3_load_contract_witness :
    ReadConfigFile "askgod.yaml" (.readable (.fields [⟨"daemon", .vnat 3⟩])) false true true =
      .ok { config := ⟨3, 0⟩, handlers := [] } :=
  (c3_load_contract "askgod.yaml" (.readable (.fields [⟨"daemon", .vnat 3⟩])) true true).2.2.2
    (.fields [⟨"daemon", .vnat 3⟩]) ⟨3, 0⟩ rfl rfl

/-- C4: the event filter: an event whose name is not exactly
`pathDir + "/" + pathBase` is discarded with no state change and no
action; an event with exactly that name starts the reload cycle; in
particular an event for any sibling name (same directory prefix, different
base name) is discarded. -/
theorem c4_event_filter (configPath evName : String) (fileNow : FsFile) (conf : Config) :
    (evName ≠ watchedPath configPath →
      loopIter configPath fileNow conf (.event evName) = (conf, [])) ∧
    (evName = watchedPath configPath →
      ∃ rest, (loopIter configPath fileNow conf (.event evName)).2 =
        Action.snapshotOld (yamlMarshal conf.config) :: Action.sleepMs 1000 ::
          Action.reDecode :: rest) ∧
    (∀ sib, sib ≠ pathBase configPath →
      loopIter configPath fileNow conf (.event (pathDirFixed configPath ++ "/" ++ sib)) =
        (conf, [])) := by
  refine ⟨?_, ?_, ?_⟩
  · intro h
    simp [loopIter, h]
  · rintro rfl
    rcases hp : parseConfig fileNow conf.config with ⟨doc2, perr⟩
    cases perr with
    | none =>
      by_cases he : yamlMarshal conf.config = yamlMarshal doc2
      · rw [loopIter_matched_ok configPath fileNow conf doc2 hp he]
        exact ⟨_, rfl⟩
      · rw [loopIter_matched_ok_diff configPath fileNow conf doc2 hp he]
        exact ⟨_, rfl⟩
    | some e =>
      by_cases he : yamlMarshal conf.config = yamlMarshal doc2
      · rw [loopIter_matched_err configPath fileNow conf doc2 e hp he]
        exact ⟨_, rfl⟩
      · rw [loopIter_matched_err_diff configPath fileNow conf doc2 e hp he]
        exact ⟨_, rfl⟩
  · intro sib hsib
    have hne : pathDirFixed configPath ++ "/" ++ sib ≠ watchedPath configPath := by
      unfold watchedPath
      intro h
      exact hsib (string_append_left_cancel h)
    simp [loopIter, hne]

/-- C4 witness: a sibling file's event in the watched directory is
discarded. -/
theorem c4_event_filter_witness :
    loopIter "/etc/askgod.yaml" (.readable (.fields []))
      { config := ⟨1, 2⟩, handlers := [7] } (.event "/etc/other.yaml") =
      ({ config := ⟨1, 2⟩, handlers := [7] }, []) :=
  (c4_event_filter "/etc/askgod.yaml" "/etc/other.yaml" (.readable (.fields []))
    { config := ⟨1, 2⟩, handlers := [7] }).1 (by decide)

/-- C5: when a cycle re-decodes successfully and the two encodings differ,
the iteration produces exactly the reload log followed by one invocation
per registered handler, in registration order, each receiving the updated
store whose document is the newly decoded value. -/
theorem c5_change_notification (configPath : String) (fileNow : FsFile) (conf : Config)
    (doc2 : ApiConfig) (hp : parseConfig fileNow conf.config = (doc2, none))
    (hd : yamlMarshal conf.config ≠ yamlMarshal doc2) :
    loopIter configPath fileNow conf (.event (watchedPath configPath)) =
      ({ conf with config := doc2 },
       [Action.snapshotOld (yamlMarshal conf.config), Action.sleepMs 1000, Action.reDecode,
        Action.logInfo "Configuration file changed, reloading"]
       ++ conf.handlers.map (fun h => Action.invoke h { conf with config := doc2 })) :=
  loopIter_matched_ok_diff configPath fileNow conf doc2 hp hd

/-- C5 witness: two registered handlers are each invoked once, in order,
with the updated store. -/
theorem c5_change_notification_witness :
    loopIter "/etc/askgod.yaml" (.readable (.fields [⟨"daemon", .vnat 8⟩]))
      { config := ⟨1, 2⟩, handlers := [4, 5] } (.event (watchedPath "/etc/askgod.yaml")) =
      ({ config := ⟨8, 2⟩, handlers := [4, 5] },
       [Action.snapshotOld "daemon: 1\nscoring: 2\n", Action.sleepMs 1000, Action.reDecode,
        Action.logInfo "Configuration file changed, reloading",
        Action.invoke 4 { config := ⟨8, 2⟩, handlers := [4, 5] },
        Action.invoke 5 { config := ⟨8, 2⟩, handlers := [4, 5] }]) := by
  rw [c5_change_notification "/etc/askgod.yaml" (.readable (.fields [⟨"daemon", .vnat 8⟩]))
    { config := ⟨1, 2⟩, handlers := [4, 5] } ⟨8, 2⟩ rfl (by decide)]
  rfl

/-- C6: when the fresh decode succeeds and its re-encoding equals the
re-encoding of the previously held document, the iteration ends silently —
its whole trace is the snapshot, the sleep and the re-decode: no log line
and no handler invocation; and re-decoding content the current document
already is the decode of (an identical rewrite) always lands in that silent
case. -/
theorem c6_noop_silent (configPath : String) (fileNow : FsFile) (conf : Config) :
    (∀ doc2, parseConfig fileNow conf.config = (doc2, none) →
      yamlMarshal doc2 = yamlMarshal conf.config →
      (loopIter configPath fileNow conf (.event (watchedPath configPath))).2 =
        [Action.snapshotOld (yamlMarshal conf.config), Action.sleepMs 1000, Action.reDecode]) ∧
    (∀ fs c0, fileNow = .readable (.fields fs) → fieldsTypeError fs = false →
      conf.config = applyFields fs c0 →
      (loopIter configPath fileNow conf (.event (watchedPath configPath))).2 =
        [Action.snapshotOld (yamlMarshal conf.config), Action.sleepMs 1000, Action.reDecode]) := by
  constructor
  · intro doc2 hp he
    rw [loopIter_matched_ok configPath fileNow conf doc2 hp he.symm]
  · rintro fs c0 rfl hte hcc
    have hp : parseConfig (.readable (.fields fs)) conf.config = (conf.config, none) := by
      simp [parseConfig, yamlUnmarshal, hte, hcc, applyFields_idem]
    rw [loopIter_matched_ok configPath (.readable (.fields fs)) conf conf.config hp rfl]

/-- C6 witness: rewriting the file with the exact content the current
document came from invokes no handler and logs nothing. -/
theorem c6_noop_silent_witness :
    (loopIter "/etc/askgod.yaml" (.readable (.fields [⟨"daemon", .vnat 3⟩]))
      { config := ⟨3, 0⟩, handlers := [1, 2] }
      (.event (watchedPath "/etc/askgod.yaml"))).2 =
      [Action.snapshotOld "daemon: 3\nscoring: 0\n", Action.sleepMs 1000, Action.reDecode] := by
  rw [(c6_noop_silent "/etc/askgod.yaml" (.readable (.fields [⟨"daemon", .vnat 3⟩]))
    { config := ⟨3, 0⟩, handlers := [1, 2] }).2 [⟨"daemon", .vnat 3⟩] ⟨0, 0⟩ rfl rfl rfl]
  rfl

/-- C7: every accepted event's iteration begins with the snapshot of the
re-encoding of the currently held document (not of the file's bytes),
then the fixed one-second sleep, then the re-decode — and the sleep is the
only sleep of the iteration, always of the full fixed 1000 ms regardless of
the file's state or anything queued. -/
theorem c7_debounce_before_redecode (configPath : String) (fileNow : FsFile) (conf : Config) :
    (∃ rest, (loopIter configPath fileNow conf (.event (watchedPath configPath))).2 =
      Action.snapshotOld (yamlMarshal conf.config) :: Action.sleepMs 1000 ::
        Action.reDecode :: rest) ∧
    ((loopIter configPath fileNow conf (.event (watchedPath configPath))).2.filter
      isSleepAction = [Action.sleepMs 1000]) := by
  rcases hp : parseConfig fileNow conf.config with ⟨doc2, perr⟩
  cases perr with
  | none =>
    by_cases he : yamlMarshal conf.config = yamlMarshal doc2
    · rw [loopIter_matched_ok configPath fileNow conf doc2 hp he]
      exact ⟨⟨_, rfl⟩, by simp [isSleepAction]⟩
    · rw [loopIter_matched_ok_diff configPath fileNow conf doc2 hp he]
      refine ⟨⟨_, rfl⟩, ?_⟩
      simp [isSleepAction, List.filter_append, filter_sleep_invokes]
  | some e =>
    by_cases he : yamlMarshal conf.config = yamlMarshal doc2
    · rw [loopIter_matched_err configPath fileNow conf doc2 e hp he]
      exact ⟨⟨_, rfl⟩, by simp [isSleepAction]⟩
    · rw [loopIter_matched_err_diff configPath fileNow conf doc2 e hp he]
      refine ⟨⟨_, rfl⟩, ?_⟩
      simp [isSleepAction, List.filter_append, filter_sleep_invokes]

/-- C8: an error from the watcher's error channel is logged and nothing
else happens: the store (document and handlers) is untouched, no handler
runs, and the loop goes on to process the remaining inputs. -/
theorem c8_subscription_error_tolerated (configPath : String) (fileNow : FsFile)
    (conf : Config) (rest : List (WatchInput × FsFile)) :
    loopIter configPath fileNow conf .werror =
      (conf, [Action.logError "Got bad file notification"]) ∧
    runLoop configPath conf ((.werror, fileNow) :: rest) =
      ((runLoop configPath conf rest).1,
        Action.logError "Got bad file notification" :: (runLoop configPath conf rest).2) := by
  constructor
  · rfl
  · simp [runLoop, loopIter]

/-- C9: with monitoring requested, if creating the watcher fails, or adding
the directory to it fails, `ReadConfigFile` returns only an error — no
store — even though the configuration file itself parsed successfully. -/
theorem c9_watch_setup_failure (configPath : String) (file : FsFile) (doc : ApiConfig)
    (hex : PathExists file = true) (hp : parseConfig file ⟨0, 0⟩ = (doc, none)) :
    ReadConfigFile configPath file true true false = .error .fsnotifySetup ∧
    ReadConfigFile configPath file true true true = .error .fsnotifySetup ∧
    ReadConfigFile configPath file true false true = .error .fsnotifyWatch := by
  refine ⟨?_, ?_, ?_⟩ <;> simp [ReadConfigFile, hex, hp]

/-- C9 witness: a parseable file, monitoring requested, watcher setup
fails. -/
theorem c9_watch_setup_failure_witness :
    ReadConfigFile "/etc/askgod.yaml" (.readable (.fields [])) true true false =
      .error .fsnotifySetup ∧
    ReadConfigFile "/etc/askgod.yaml" (.readable (.fields [])) true false true =
      .error .fsnotifyWatch :=
  ⟨(c9_watch_setup_failure "/etc/askgod.yaml" (.readable (.fields [])) ⟨0, 0⟩ rfl rfl).1,
   (c9_watch_setup_failure "/etc/askgod.yaml" (.readable (.fields [])) ⟨0, 0⟩ rfl rfl).2.2⟩

/-- C10: `filepath.Dir` never returns the empty string (its `Clean` step
returns `"."` for an empty result), so the `pathDir == ""` fallback to
`"./"` is dead code: the comparison path the event filter uses is always
built from `filepath.Dir`'s result itself. -/
theorem c10_dir_fallback_unreachable (configPath : String) :
    filepathDir configPath ≠ "" ∧
    pathDirFixed configPath = filepathDir configPath ∧
    watchedPath configPath = filepathDir configPath ++ "/" ++ filepathBase configPath := by
  have h : filepathDir configPath ≠ "" := by
    unfold filepathDir
    intro hc
    exact clean_ne_nil _ (by simpa using congrArg String.data hc)
  refine ⟨h, ?_, ?_⟩
  · unfold pathDirFixed pathDirRaw
    simp [h]
  · unfold watchedPath pathDirFixed pathDirRaw pathBase
    simp [h]

end Askgod
